import Mathlib

/-!
Shallow embedding of `src/sign_data.rs` from the eip712-signer repository:
a presale parameter validator, a token-requirement calculator, a
balance/allowance verifier against an external ledger, and an EIP-712
attestation-building and signing pipeline.

Rust `u64` values are modelled as `Nat`; arithmetic wraps modulo `2 ^ 64`
exactly where the Rust code uses unchecked `u64` arithmetic
(`calculate_amount`).  External effects (environment variables, the ledger
client, the wallet) are modelled as an explicit environment record, and
`expect`-style panics are a distinct outcome constructor, separate from
returned `Err` values.
-/

namespace SignData

/-- Mirrors the `Presale` struct (sign_data.rs lines 43-71).  `u64` fields
become `Nat`; the serde rename attributes only affect the serialized key
names, which appear in `presale_to_pairs` below. -/
structure Presale where
  currency : String
  presale_rate : Nat
  softcap : Nat
  hardcap : Nat
  min_buy : Nat
  max_buy : Nat
  liquidity_rate : Nat
  listing_rate : Nat
  start_time : Nat
  end_time : Nat
  lock_end_time : Nat
  is_vesting : Bool
  is_lock : Bool
  refund : Bool
  auto_listing : Bool

/-- Mirrors the `ParamsErrors` enum (sign_data.rs lines 74-85): the nine
named violation kinds. -/
inductive ParamsErrors where
  | MinBuyError
  | MaxBuyError
  | HardcapError
  | SoftcapError
  | LiqRateError
  | ListingRateError
  | PresaleRateError
  | StartTimeError
  | EndTimeError
deriving DecidableEq, Repr

/-- Mirrors the `ToOption::ok_or` helper (sign_data.rs lines 110-118):
`true` becomes `Ok(())`, `false` becomes `Err(error)`. -/
def ok_or (b : Bool) (error : ParamsErrors) : Except ParamsErrors Unit :=
  if b then Except.ok () else Except.error error

/-- Mirrors `check_params` (sign_data.rs lines 145-183): the `and_then`
chain of ten checks.  The sampled current time (`SystemTime::now`, seconds
since the epoch) is passed in as `now_timestamp`. -/
def check_params (presale : Presale) (now_timestamp : Nat) : Except ParamsErrors Unit :=
  Except.ok ()
  |>.bind (fun _ => ok_or (decide (presale.min_buy > 0)) ParamsErrors.MinBuyError)
  |>.bind (fun _ => ok_or (decide (presale.max_buy > 0) && decide (presale.min_buy < presale.max_buy)) ParamsErrors.MaxBuyError)
  |>.bind (fun _ => ok_or (decide (presale.max_buy ≤ presale.hardcap)) ParamsErrors.MaxBuyError)
  |>.bind (fun _ => ok_or (decide (presale.hardcap > 0) && decide (presale.hardcap > presale.softcap)) ParamsErrors.HardcapError)
  |>.bind (fun _ => ok_or (decide (presale.softcap ≥ presale.hardcap / 2)) ParamsErrors.HardcapError)
  |>.bind (fun _ => ok_or (decide (presale.softcap > 0)) ParamsErrors.SoftcapError)
  |>.bind (fun _ => ok_or (decide (presale.liquidity_rate > 50) && decide (presale.liquidity_rate ≤ 100)) ParamsErrors.LiqRateError)
  |>.bind (fun _ => ok_or (decide (presale.listing_rate > 0) && decide (presale.listing_rate ≤ 100000000000)) ParamsErrors.ListingRateError)
  |>.bind (fun _ => ok_or (decide (presale.presale_rate > 0) && decide (presale.presale_rate ≤ 100000000000)) ParamsErrors.PresaleRateError)
  |>.bind (fun _ => ok_or (decide (presale.start_time ≥ now_timestamp) && decide (presale.start_time < presale.end_time)) ParamsErrors.StartTimeError)

/-- Specification-side view of the ten rules of §4.1, numbered 1-10: the
boolean condition tested by the i-th `and_then` step of `check_params`. -/
def ruleHolds : Nat → Presale → Nat → Bool
  | 1, p, _ => decide (p.min_buy > 0)
  | 2, p, _ => decide (p.max_buy > 0) && decide (p.min_buy < p.max_buy)
  | 3, p, _ => decide (p.max_buy ≤ p.hardcap)
  | 4, p, _ => decide (p.hardcap > 0) && decide (p.hardcap > p.softcap)
  | 5, p, _ => decide (p.softcap ≥ p.hardcap / 2)
  | 6, p, _ => decide (p.softcap > 0)
  | 7, p, _ => decide (p.liquidity_rate > 50) && decide (p.liquidity_rate ≤ 100)
  | 8, p, _ => decide (p.listing_rate > 0) && decide (p.listing_rate ≤ 100000000000)
  | 9, p, _ => decide (p.presale_rate > 0) && decide (p.presale_rate ≤ 100000000000)
  | 10, p, now => decide (p.start_time ≥ now) && decide (p.start_time < p.end_time)
  | _, _, _ => true

/-- The `ParamsErrors` variant that the i-th check of `check_params`
reports when it fails.  Note rules 2 and 3 both report `MaxBuyError` and
rules 4 and 5 both report `HardcapError`. -/
def ruleError : Nat → ParamsErrors
  | 1 => ParamsErrors.MinBuyError
  | 2 => ParamsErrors.MaxBuyError
  | 3 => ParamsErrors.MaxBuyError
  | 4 => ParamsErrors.HardcapError
  | 5 => ParamsErrors.HardcapError
  | 6 => ParamsErrors.SoftcapError
  | 7 => ParamsErrors.LiqRateError
  | 8 => ParamsErrors.ListingRateError
  | 9 => ParamsErrors.PresaleRateError
  | _ => ParamsErrors.StartTimeError

/-- The rule indices in evaluation order. -/
def rules : List Nat := [1, 2, 3, 4, 5, 6, 7, 8, 9, 10]

/-- The first rule (in evaluation order) that the presale violates, if any. -/
def firstViolatedRule (p : Presale) (now : Nat) : Option Nat :=
  rules.find? (fun i => !(ruleHolds i p now))

/-- Specification-side normal form of `check_params`: report the error of
the first violated rule, or succeed when no rule is violated. -/
def checkRules (p : Presale) (now : Nat) : Except ParamsErrors Unit :=
  match firstViolatedRule p now with
  | some i => Except.error (ruleError i)
  | none => Except.ok ()

/-- Mirrors `calculate_amount` (sign_data.rs lines 199-203).  The Rust code
uses plain (unchecked) `u64` multiplication and addition via `Mul::mul` and
`Add::add`, so in release builds overflow wraps modulo `2 ^ 64`; the
wrapping is made explicit here.  (In debug builds the same overflow aborts
the process; either way no overflow `Err` is produced.) -/
def calculate_amount (hardcap : Nat) (presale_rate : Nat) (listing_rate : Nat) : Nat :=
  let presale_amount := hardcap * presale_rate % 2 ^ 64
  let liquidity_amount := hardcap * listing_rate % 2 ^ 64
  (presale_amount + liquidity_amount) % 2 ^ 64

/-- Numeric value of a hexadecimal digit character. -/
def hexVal (c : Char) : Nat :=
  if c ≤ '9' then c.toNat - '0'.toNat
  else if c ≤ 'F' then c.toNat - 'A'.toNat + 10
  else c.toNat - 'a'.toNat + 10

/-- Whether a character is a hexadecimal digit. -/
def isHexDigit (c : Char) : Bool :=
  (('0' ≤ c) && (c ≤ '9')) || (('a' ≤ c) && (c ≤ 'f')) || (('A' ≤ c) && (c ≤ 'F'))

/-- Models `H160::from_str` / `str::parse::<Address>` from ethers-core: the
input must be 40 hexadecimal digits (an optional `0x` prefix is stripped),
yielding the 160-bit address value; anything else fails to parse. -/
def parseH160 (s : String) : Option Nat :=
  let cs := s.data
  let cs := match cs with
    | '0' :: 'x' :: rest => rest
    | other => other
  if cs.length = 40 && cs.all isHexDigit then
    some (cs.foldl (fun acc c => acc * 16 + hexVal c) 0)
  else none

/-- Outcome of a fallible computation that may also abort the process: an
`expect`/`unwrap` panic is `panic`, distinct from a returned `Err`. -/
inductive Outcome (ε : Type) (α : Type) where
  | ok (a : α)
  | err (e : ε)
  | panic (msg : String)
deriving DecidableEq, Repr

/-- Failure kinds of `get_token_info` other than panics: the `?`-propagated
errors (missing environment variable, bad provider URL, failed contract
call) and the "insufficient balance" `io::Error` it constructs itself. -/
inductive TokenInfoError where
  | envVar (name : String)
  | providerError
  | contractError
  | insufficientBalance
deriving DecidableEq, Repr

/-- Mirrors `Eip712DomainType` from ethers-core: a field name paired with
its EIP-712 type string. -/
structure Eip712DomainType where
  name : String
  type : String
deriving DecidableEq, Repr

/-- Mirrors `EIP712Domain` from ethers-core; `U256` and `Address` values
are `Nat`, and `H256` salt is `Nat` as well. -/
structure EIP712Domain where
  name : Option String
  version : Option String
  chain_id : Option Nat
  verifying_contract : Option Nat
  salt : Option Nat
deriving DecidableEq, Repr

/-- Model of `serde_json::Value` restricted to the shapes this program
produces: strings, unsigned numbers, booleans and objects. -/
inductive JsonValue where
  | str (s : String)
  | num (n : Nat)
  | bool (b : Bool)
  | obj (fields : List (String × JsonValue))

/-- Mirrors the `TypedData` record passed to `sign_typed_data`: domain,
the `Types` map (a `BTreeMap`, here an association list in key order),
primary type name and the message payload. -/
structure TypedData where
  domain : EIP712Domain
  types : List (String × List Eip712DomainType)
  primary_type : String
  message : List (String × JsonValue)

/-- External world of the pipeline: environment variables, the ledger
client reached through the HTTP provider, and the wallet.  `balance_of`
takes the token contract address and the owner; `allowance` takes the
token contract address, the owner and the spender.  A `.error` result of a
ledger call models a failed (network/revert) contract call. -/
structure ChainEnv where
  rpc_url : Option String
  proxy_manager : Option String
  try_from_provider : String → Bool
  balance_of : Nat → Nat → Except Unit Nat
  allowance : Nat → Nat → Nat → Except Unit Nat
  private_key : Option String
  parse_wallet : String → Bool
  sign_typed_data : TypedData → Except Unit String

/-- Read-only ledger queries issued by `get_token_info`, recorded in the
order the code awaits them. -/
inductive LedgerEffect where
  | balanceOfQuery
  | allowanceQuery
deriving DecidableEq, Repr

/-- Mirrors `get_token_info` (sign_data.rs lines 224-248): read `RPC_URL`
and `PROXY_MANAGER`, parse the pool-manager address (`expect` panics on an
unparsable value), build the provider, query balance and allowance, and
succeed exactly when both are at least `amount` (the `U256::from` lift of
a `u64` is injective, so the comparison is on `Nat`).  The second
component records which ledger queries were issued. -/
def get_token_info (env : ChainEnv) (address : Nat) (owner : Nat) (amount : Nat) :
    Outcome TokenInfoError Unit × List LedgerEffect :=
  match env.rpc_url with
  | none => (Outcome.err (TokenInfoError.envVar "RPC_URL"), [])
  | some rpc_url =>
    match env.proxy_manager with
    | none => (Outcome.err (TokenInfoError.envVar "PROXY_MANAGER"), [])
    | some proxy_man =>
      match parseH160 proxy_man with
      | none => (Outcome.panic "Invalid address", [])
      | some pool_manager =>
        if env.try_from_provider rpc_url then
          match env.balance_of address owner with
          | Except.error _ => (Outcome.err TokenInfoError.contractError, [LedgerEffect.balanceOfQuery])
          | Except.ok balance =>
            match env.allowance address owner pool_manager with
            | Except.error _ =>
                (Outcome.err TokenInfoError.contractError,
                 [LedgerEffect.balanceOfQuery, LedgerEffect.allowanceQuery])
            | Except.ok allowance =>
              if decide (balance ≥ amount) && decide (allowance ≥ amount) then
                (Outcome.ok (), [LedgerEffect.balanceOfQuery, LedgerEffect.allowanceQuery])
              else
                (Outcome.err TokenInfoError.insufficientBalance,
                 [LedgerEffect.balanceOfQuery, LedgerEffect.allowanceQuery])
        else (Outcome.err TokenInfoError.providerError, [])

/-- The literal development placeholder that `sign` (sign_data.rs line 295)
parses as the verifying-contract address. -/
def contractPlaceholder : String := "/*CONTRACT ADDRESS IS HERE*/"

/-- Mirrors the `EIP712Domain` literal built in `sign` (sign_data.rs lines
290-300), parameterised by the parsed verifying-contract address (the
parse itself happens in `sign`). -/
def mkDomain (vc : Nat) : EIP712Domain :=
  { name := some "EIP712-Derive"
    version := some "1"
    chain_id := some 1
    verifying_contract := some vc
    salt := none }

/-- Mirrors `domain_vec` (sign_data.rs lines 303-320): the EIP712Domain
type fields, in source order. -/
def domain_vec : List Eip712DomainType :=
  [⟨"name", "string"⟩,
   ⟨"version", "string"⟩,
   ⟨"chain_id", "uint256"⟩,
   ⟨"verifying_contract", "address"⟩]

/-- Mirrors `permit` (sign_data.rs lines 322-383): the Permit type fields,
in source order. -/
def permit : List Eip712DomainType :=
  [⟨"currency", "address"⟩,
   ⟨"presaleRate", "uint256"⟩,
   ⟨"softcap", "uint256"⟩,
   ⟨"hardcap", "uint256"⟩,
   ⟨"minBuy", "uint256"⟩,
   ⟨"maxBuy", "uint256"⟩,
   ⟨"liquidityRate", "uint256"⟩,
   ⟨"listingRate", "uint256"⟩,
   ⟨"startTime", "uint256"⟩,
   ⟨"endTime", "uint256"⟩,
   ⟨"lockEndTime", "uint256"⟩,
   ⟨"isVesting", "bool"⟩,
   ⟨"isLock", "bool"⟩,
   ⟨"refund", "bool"⟩,
   ⟨"autoListing", "bool"⟩]

/-- Serde serialization of `Presale` to JSON key-value pairs, in field
declaration order with the `#[serde(rename = ...)]` external key names
(sign_data.rs lines 43-71).  A `u64` serializes as a JSON number and a
`bool` as a JSON boolean; serialization of this struct cannot fail. -/
def presale_to_pairs (p : Presale) : List (String × JsonValue) :=
  [("currency", JsonValue.str p.currency),
   ("presaleRate", JsonValue.num p.presale_rate),
   ("softcap", JsonValue.num p.softcap),
   ("hardcap", JsonValue.num p.hardcap),
   ("minBuy", JsonValue.num p.min_buy),
   ("maxBuy", JsonValue.num p.max_buy),
   ("liquidityRate", JsonValue.num p.liquidity_rate),
   ("listingRate", JsonValue.num p.listing_rate),
   ("startTime", JsonValue.num p.start_time),
   ("endTime", JsonValue.num p.end_time),
   ("lockEndTime", JsonValue.num p.lock_end_time),
   ("isVesting", JsonValue.bool p.is_vesting),
   ("isLock", JsonValue.bool p.is_lock),
   ("refund", JsonValue.bool p.refund),
   ("autoListing", JsonValue.bool p.auto_listing)]

/-- Mirrors `serde_json::to_value(presale)`: always a JSON object for this
struct. -/
def to_value (p : Presale) : JsonValue :=
  JsonValue.obj (presale_to_pairs p)

/-- Failure kinds returned (not panicked) by `sign`: the boxed
`ParamsErrors` values, the serde error, the "Not an object" `io::Error`,
a `PRIVATE_KEY` that fails to parse as a wallet, and a signing backend
failure. -/
inductive SignError where
  | params (e : ParamsErrors)
  | serdeError
  | notAnObject
  | walletParseError
  | signTypedDataError
deriving DecidableEq, Repr

/-- Mirrors `sign` (sign_data.rs lines 273-416): validate the parameters,
compute the required amount, parse the currency address (`expect` panics
on an unparsable one), run the balance/allowance check — mapping every one
of its failures to `ParamsErrors::EndTimeError` (line 288) — then build
the EIP-712 domain (parsing the literal placeholder string, `expect`
panicking on failure), the `Types` map, the serialized message, and sign
with the wallet parsed from `PRIVATE_KEY` (`unwrap` panics when the
variable is missing).  The second component records the ledger queries
issued. -/
def sign (env : ChainEnv) (presale : Presale) (owner : Nat) (now_timestamp : Nat) :
    Outcome SignError String × List LedgerEffect :=
  match check_params presale now_timestamp with
  | Except.error e => (Outcome.err (SignError.params e), [])
  | Except.ok _ =>
    let amount := calculate_amount presale.hardcap presale.presale_rate presale.listing_rate
    match parseH160 presale.currency with
    | none => (Outcome.panic "Invalid address", [])
    | some currency_h160 =>
      match get_token_info env currency_h160 owner amount with
      | (Outcome.err _, effects) => (Outcome.err (SignError.params ParamsErrors.EndTimeError), effects)
      | (Outcome.panic msg, effects) => (Outcome.panic msg, effects)
      | (Outcome.ok _, effects) =>
        match parseH160 contractPlaceholder with
        | none => (Outcome.panic "Invalid contract", effects)
        | some vc =>
          let domain := mkDomain vc
          let types := [("EIP712Domain", domain_vec), ("Permit", permit)]
          match to_value presale with
          | JsonValue.obj json_map =>
            let typed_data : TypedData :=
              { domain := domain
                types := types
                primary_type := "Permit"
                message := json_map }
            match env.private_key with
            | none => (Outcome.panic "PRIVATE_KEY unwrap", effects)
            | some pk =>
              if env.parse_wallet pk then
                match env.sign_typed_data typed_data with
                | Except.ok signature => (Outcome.ok ("0x" ++ signature), effects)
                | Except.error _ => (Outcome.err SignError.signTypedDataError, effects)
              else (Outcome.err SignError.walletParseError, effects)
          | _ => (Outcome.err SignError.notAnObject, effects)

/-- Whether a serialized JSON value is of the shape declared by an
EIP-712 type string, for the types this schema uses. -/
def jsonMatchesType : JsonValue → String → Bool
  | JsonValue.str _, "address" => true
  | JsonValue.num _, "uint256" => true
  | JsonValue.bool _, "bool" => true
  | _, _ => false

/-- A presale satisfying all ten validation rules at time 50, with a
well-formed 40-hex-digit currency address. -/
def exValid : Presale :=
  { currency := "0000000000000000000000000000000000000001"
    presale_rate := 10
    softcap := 60
    hardcap := 100
    min_buy := 1
    max_buy := 10
    liquidity_rate := 60
    listing_rate := 5
    start_time := 100
    end_time := 200
    lock_end_time := 300
    is_vesting := false
    is_lock := false
    refund := false
    auto_listing := false }

/-- A presale violating rule 3 (`max_buy ≤ hardcap`: 200 > 100) and rule 7
(`50 < liquidity_rate ≤ 100`: 10) simultaneously, satisfying rules 1-2. -/
def ex37 : Presale :=
  { exValid with max_buy := 200, liquidity_rate := 10 }

/-- A presale violating exactly rule 5 (`softcap ≥ hardcap / 2`: 40 < 50)
while satisfying every other rule at time 50. -/
def exOnly5 : Presale :=
  { exValid with softcap := 40 }

/-- A presale violating rule 1 (`min_buy > 0`). -/
def exMinBuy0 : Presale :=
  { exValid with min_buy := 0 }

/-- A fully configured environment whose ledger reports ample balance and
allowance and whose wallet signs successfully. -/
def envRich : ChainEnv :=
  { rpc_url := some "http://localhost:8545"
    proxy_manager := some "0000000000000000000000000000000000000002"
    try_from_provider := fun _ => true
    balance_of := fun _ _ => Except.ok 1000000
    allowance := fun _ _ _ => Except.ok 1000000
    private_key := some "aa"
    parse_wallet := fun _ => true
    sign_typed_data := fun _ => Except.ok "cafe" }

/-- The same environment with the `RPC_URL` variable missing: an
infrastructure failure of the ledger query stage. -/
def envNoRpc : ChainEnv :=
  { envRich with rpc_url := none }

/-- The same environment with a zero token balance: an insufficient-funds
failure of the ledger query stage. -/
def envPoor : ChainEnv :=
  { envRich with balance_of := fun _ _ => Except.ok 0 }

/-- Environment whose ledger reports balance 1000 and allowance 1000. -/
def env1000 : ChainEnv :=
  { envRich with
      balance_of := fun _ _ => Except.ok 1000
      allowance := fun _ _ _ => Except.ok 1000 }

/-- Environment whose ledger reports balance 999 and allowance 1000. -/
def env999bal : ChainEnv :=
  { env1000 with balance_of := fun _ _ => Except.ok 999 }

/-- Environment whose ledger reports balance 1000 and allowance 999. -/
def env999alw : ChainEnv :=
  { env1000 with allowance := fun _ _ _ => Except.ok 999 }

/-- The `and_then` chain of `check_params` computes exactly the error of
the first violated rule (in the order 1..10), or success when every rule
holds. -/
theorem check_params_eq (p : Presale) (now : Nat) :
    check_params p now = checkRules p now := by
  simp only [check_params, checkRules, firstViolatedRule, rules, ok_or]
  cases h1 : decide (p.min_buy > 0)
  · simp [List.find?, ruleHolds, ruleError, h1, Except.bind]
  · cases h2 : (decide (p.max_buy > 0) && decide (p.min_buy < p.max_buy))
    · simp [List.find?, ruleHolds, ruleError, h1, h2, Except.bind]
    · cases h3 : decide (p.max_buy ≤ p.hardcap)
      · simp [List.find?, ruleHolds, ruleError, h1, h2, h3, Except.bind]
      · cases h4 : (decide (p.hardcap > 0) && decide (p.hardcap > p.softcap))
        · simp [List.find?, ruleHolds, ruleError, h1, h2, h3, h4, Except.bind]
        · cases h5 : decide (p.softcap ≥ p.hardcap / 2)
          · simp [List.find?, ruleHolds, ruleError, h1, h2, h3, h4, h5, Except.bind]
          · cases h6 : decide (p.softcap > 0)
            · simp [List.find?, ruleHolds, ruleError, h1, h2, h3, h4, h5, h6, Except.bind]
            · cases h7 : (decide (p.liquidity_rate > 50) && decide (p.liquidity_rate ≤ 100))
              · simp [List.find?, ruleHolds, ruleError, h1, h2, h3, h4, h5, h6, h7, Except.bind]
              · cases h8 : (decide (p.listing_rate > 0) && decide (p.listing_rate ≤ 100000000000))
                · simp [List.find?, ruleHolds, ruleError, h1, h2, h3, h4, h5, h6, h7, h8, Except.bind]
                · cases h9 : (decide (p.presale_rate > 0) && decide (p.presale_rate ≤ 100000000000))
                  · simp [List.find?, ruleHolds, ruleError, h1, h2, h3, h4, h5, h6, h7, h8, h9,
                      Except.bind]
                  · cases h10 : (decide (p.start_time ≥ now) && decide (p.start_time < p.end_time))
                    · simp [List.find?, ruleHolds, ruleError, h1, h2, h3, h4, h5, h6, h7, h8, h9,
                        h10, Except.bind]
                    · simp [List.find?, ruleHolds, ruleError, h1, h2, h3, h4, h5, h6, h7, h8, h9,
                        h10, Except.bind]

/-- C1: for every `Presale` whose fields satisfy all ten validation rules
of §4.1 (with `now` the timestamp sampled at validation time),
`check_params` returns `Ok(())`. -/
theorem check_params_ok_of_rules (p : Presale) (now : Nat)
    (h1 : p.min_buy > 0)
    (h2a : p.max_buy > 0) (h2b : p.min_buy < p.max_buy)
    (h3 : p.max_buy ≤ p.hardcap)
    (h4a : p.hardcap > 0) (h4b : p.hardcap > p.softcap)
    (h5 : p.softcap ≥ p.hardcap / 2)
    (h6 : p.softcap > 0)
    (h7a : p.liquidity_rate > 50) (h7b : p.liquidity_rate ≤ 100)
    (h8a : p.listing_rate > 0) (h8b : p.listing_rate ≤ 100000000000)
    (h9a : p.presale_rate > 0) (h9b : p.presale_rate ≤ 100000000000)
    (h10a : p.start_time ≥ now) (h10b : p.start_time < p.end_time) :
    check_params p now = Except.ok () := by
  simp [check_params, ok_or, h1, h2a, h2b, h3, h4a, h4b, h5, h6, h7a, h7b, h8a, h8b,
    h9a, h9b, h10a, h10b, Except.bind]

/-- Witness for C1: `exValid` satisfies all ten rules at time 50 and
validates successfully. -/
theorem check_params_ok_of_rules_witness :
    check_params exValid 50 = Except.ok () :=
  check_params_ok_of_rules exValid 50 (by decide) (by decide) (by decide) (by decide)
    (by decide) (by decide) (by decide) (by decide) (by decide) (by decide) (by decide)
    (by decide) (by decide) (by decide) (by decide) (by decide)

/-- C3: rule evaluation is ordered and short-circuiting: whenever some rule
is violated, `check_params` reports the error of the first violated rule in
the order 1..10. -/
theorem check_params_first_violation (p : Presale) (now : Nat) (i : Nat)
    (h : firstViolatedRule p now = some i) :
    check_params p now = Except.error (ruleError i) := by
  rw [check_params_eq]
  unfold checkRules
  rw [h]

/-- Witness for C3: `ex37` violates rules 3 and 7 simultaneously; the
first violated rule is 3 and `check_params` reports rule 3's error
(`MaxBuyError`), not rule 7's (`LiqRateError`). -/
theorem check_params_first_violation_witness :
    firstViolatedRule ex37 50 = some 3 ∧
    ruleHolds 7 ex37 50 = false ∧
    check_params ex37 50 = Except.error (ruleError 3) ∧
    ruleError 3 = ParamsErrors.MaxBuyError ∧
    ruleError 7 = ParamsErrors.LiqRateError :=
  ⟨by decide, by decide, check_params_first_violation ex37 50 3 (by decide), rfl, rfl⟩

/-- Counterexample for C4: the ten rules do not map to ten distinct
violation kinds.  `exOnly5` violates exactly rule 5 yet `check_params`
reports `HardcapError`, which is also the kind reported for rule 4 — the
kind of a different rule. -/
theorem rule_kinds_not_distinct :
    ruleHolds 5 exOnly5 50 = false ∧
    (∀ j ∈ rules, j ≠ 5 → ruleHolds j exOnly5 50 = true) ∧
    check_params exOnly5 50 = Except.error ParamsErrors.HardcapError ∧
    ruleError 4 = ParamsErrors.HardcapError ∧
    (4 : Nat) ≠ 5 :=
  ⟨by decide, by decide, rfl, rfl, by decide⟩

/-- C4 (amended): rules map to violation kinds by `ruleError`, under which
rules 2 and 3 share `MaxBuyError` and rules 4 and 5 share `HardcapError`
(eight distinct kinds for ten rules); a `Presale` violating exactly one
rule receives that rule's mapped kind. -/
theorem check_params_single_violation (p : Presale) (now : Nat) (i : Nat)
    (hmem : i ∈ rules) (hv : ruleHolds i p now = false)
    (ho : ∀ j ∈ rules, j ≠ i → ruleHolds j p now = true) :
    check_params p now = Except.error (ruleError i) ∧
    ruleError 2 = ruleError 3 ∧ ruleError 4 = ruleError 5 := by
  refine ⟨?_, rfl, rfl⟩
  rw [check_params_eq]
  have hf : firstViolatedRule p now = some i := by
    fin_cases hmem <;> simp_all [firstViolatedRule, rules, List.find?]
  unfold checkRules
  rw [hf]

/-- Witness for C4 (amended): `exOnly5` violates exactly rule 5 and
receives rule 5's mapped kind. -/
theorem check_params_single_violation_witness :
    check_params exOnly5 50 = Except.error (ruleError 5) ∧
    ruleError 2 = ruleError 3 ∧ ruleError 4 = ruleError 5 :=
  check_params_single_violation exOnly5 50 5 (by decide) (by decide) (by decide)

/-- C2: `calculate_amount` returns `hardcap * presaleRate + hardcap *
listingRate` on in-range inputs (in particular 1500 at (100, 10, 5)), but
on overflow it wraps modulo `2 ^ 64` instead of failing: at
(2^63, 2, 2) the true requirement is `2 ^ 65` yet the code returns 0. -/
theorem calculate_amount_values :
    calculate_amount 100 10 5 = 1500 ∧
    calculate_amount (2 ^ 63) 2 2 = 0 ∧
    (2 ^ 63) * 2 + (2 ^ 63) * 2 = 2 ^ 65 :=
  ⟨by norm_num [calculate_amount], by norm_num [calculate_amount], by norm_num⟩

/-- C5: given that the environment variables resolve, the proxy address
parses, the provider connects, and the two ledger queries return balance
`b` and allowance `a`, `get_token_info` succeeds iff `b ≥ amount` and
`a ≥ amount`. -/
theorem get_token_info_iff (env : ChainEnv) (address owner amount : Nat)
    (rpc pm : String) (pool b a : Nat)
    (h1 : env.rpc_url = some rpc) (h2 : env.proxy_manager = some pm)
    (h3 : parseH160 pm = some pool) (h4 : env.try_from_provider rpc = true)
    (h5 : env.balance_of address owner = Except.ok b)
    (h6 : env.allowance address owner pool = Except.ok a) :
    (get_token_info env address owner amount).1 = Outcome.ok () ↔ b ≥ amount ∧ a ≥ amount := by
  simp only [get_token_info, h1, h2, h3, h4, h5, h6, if_true]
  by_cases hb : amount ≤ b <;> by_cases ha : amount ≤ a <;>
    simp [hb, ha]

/-- Witness for C5: with balance = allowance = 1000 and required amount
1000 the verifier succeeds; lowering either figure to 999 makes it fail. -/
theorem get_token_info_iff_witness :
    (get_token_info env1000 1 7 1000).1 = Outcome.ok () ∧
    (get_token_info env999bal 1 7 1000).1 ≠ Outcome.ok () ∧
    (get_token_info env999alw 1 7 1000).1 ≠ Outcome.ok () := by
  refine ⟨?_, ?_, ?_⟩
  · exact (get_token_info_iff env1000 1 7 1000 "http://localhost:8545"
      "0000000000000000000000000000000000000002" 2 1000 1000 rfl rfl rfl rfl rfl rfl).mpr
      (by decide)
  · intro h
    have hba := (get_token_info_iff env999bal 1 7 1000 "http://localhost:8545"
      "0000000000000000000000000000000000000002" 2 999 1000 rfl rfl rfl rfl rfl rfl).mp h
    exact absurd hba.1 (by decide)
  · intro h
    have hba := (get_token_info_iff env999alw 1 7 1000 "http://localhost:8545"
      "0000000000000000000000000000000000000002" 2 1000 999 rfl rfl rfl rfl rfl rfl).mp h
    exact absurd hba.2 (by decide)

/-- C6 (refuted): `sign` maps every failure of `get_token_info` to the
single validation kind `ParamsErrors::EndTimeError`: an infrastructure
failure (missing `RPC_URL`) and an insufficient-funds failure (zero
balance) leave the pipeline as the same validation-error kind, so the
distinct kinds are erased before the result leaves the pipeline. -/
theorem sign_conflates_failures :
    sign envNoRpc exValid 7 50 =
      (Outcome.err (SignError.params ParamsErrors.EndTimeError), []) ∧
    sign envPoor exValid 7 50 =
      (Outcome.err (SignError.params ParamsErrors.EndTimeError),
       [LedgerEffect.balanceOfQuery, LedgerEffect.allowanceQuery]) :=
  ⟨rfl, rfl⟩

/-- C7: when parameter validation fails, `sign` returns that validation
failure with no ledger query issued: the effect trace is empty and no
later stage runs. -/
theorem sign_short_circuits_validation (env : ChainEnv) (p : Presale) (owner now : Nat)
    (e : ParamsErrors) (h : check_params p now = Except.error e) :
    sign env p owner now = (Outcome.err (SignError.params e), []) := by
  unfold sign
  rw [h]

/-- Witness for C7: a presale with `minBuy = 0` is rejected with
`MinBuyError` and no `balanceOf` or `allowance` query occurs. -/
theorem sign_short_circuits_validation_witness :
    check_params exMinBuy0 50 = Except.error ParamsErrors.MinBuyError ∧
    sign envRich exMinBuy0 7 50 =
      (Outcome.err (SignError.params ParamsErrors.MinBuyError), []) :=
  ⟨rfl, sign_short_circuits_validation envRich exMinBuy0 7 50 ParamsErrors.MinBuyError rfl⟩

/-- C8 (refuted): the verifying-contract address is the hardcoded literal
development placeholder, which fails to parse, so every request that
reaches attestation building aborts with the `expect` panic
"Invalid contract" — an untyped crash, not a typed configuration error. -/
theorem sign_panics_on_placeholder :
    parseH160 contractPlaceholder = none ∧
    sign envRich exValid 7 50 =
      (Outcome.panic "Invalid contract",
       [LedgerEffect.balanceOfQuery, LedgerEffect.allowanceQuery]) :=
  ⟨rfl, rfl⟩

/-- Counterexample for C9: the Permit schema descriptor lists 15 fields,
not 14. -/
theorem permit_has_fifteen_fields :
    permit.length = 15 ∧ permit.length ≠ 14 := by decide

/-- C9 (amended): the schema descriptor is the fixed 15-field list
`permit`, independent of input, and for every `Presale` the serialized
message payload's keys equal the schema field names in the same order,
with each value of the JSON shape its declared EIP-712 type requires. -/
theorem schema_matches_payload (p : Presale) :
    (presale_to_pairs p).map Prod.fst = permit.map Eip712DomainType.name ∧
    permit.length = 15 ∧
    ((presale_to_pairs p).zip permit).all
      (fun kv => jsonMatchesType kv.1.2 kv.2.type) = true :=
  ⟨rfl, rfl, rfl⟩

/-- C10: the EIP-712 domain descriptor built by `sign` carries the
constants name "EIP712-Derive", version "1", chain identifier 1 and no
salt, and the domain schema lists exactly the fields name (string),
version (string), chain_id (uint256), verifying_contract (address) in
that order, independent of the request. -/
theorem domain_constants (vc : Nat) :
    (mkDomain vc).name = some "EIP712-Derive" ∧
    (mkDomain vc).version = some "1" ∧
    (mkDomain vc).chain_id = some 1 ∧
    (mkDomain vc).verifying_contract = some vc ∧
    (mkDomain vc).salt = none ∧
    domain_vec.map (fun t => (t.name, t.type)) =
      [("name", "string"), ("version", "string"), ("chain_id", "uint256"),
       ("verifying_contract", "address")] :=
  ⟨rfl, rfl, rfl, rfl, rfl, rfl⟩

end SignData
